import Mathlib

/-!
Verification of the image-pull redirection layer in
`api/server/router/image/image_routes.go`.

Go strings are modelled as `List Char`. External collaborators (the local
resolver's HTTP channel, the backend, and the `docker/distribution`
reference library) are modelled as oracles supplied in an environment
record; the handler itself is translated faithfully from the source.
Logging (`logrus`) is side-effect free for the claims and is omitted.
-/

namespace ImageRoutes

/-- A Go string, modelled as its list of characters. -/
abbrev Str := List Char

/-- Shorthand to turn a Lean string literal into the model's string type. -/
def lit (s : String) : Str := s.toList

/-- Source: `defaultRegistryUrl = "docker.io"`. -/
def defaultRegistryUrl : Str := lit "docker.io"

/-- Source: `defaultUserName = "library"`. -/
def defaultUserName : Str := lit "library"

/-- Go `strings.Count(s, string(c))` for a single-character separator:
the number of occurrences of `c` in `s`. -/
def stringsCount (s : Str) (c : Char) : Nat := s.count c

/-- Go `strings.IndexRune(s, c)`: index of the first occurrence of `c`
in `s`, or `-1` when `c` does not occur. -/
def stringsIndexRune (s : Str) (c : Char) : Int :=
  match s with
  | [] => -1
  | x :: xs =>
    if x = c then 0
    else
      let r := stringsIndexRune xs c
      if r < 0 then -1 else r + 1

/-- Go `strings.ContainsAny(s, chars)`: whether any character of `chars`
occurs in `s`. -/
def stringsContainsAny (s : Str) (chars : Str) : Bool :=
  s.any (fun c => chars.contains c)

/-- Go slice `s[:i]` for a non-negative index. -/
def sliceTo (s : Str) (i : Int) : Str := s.take i.toNat

/-- Go slice `s[i+1:]` for a non-negative index. -/
def sliceFromSucc (s : Str) (i : Int) : Str := s.drop (i.toNat + 1)

/-- Translation of `convertImageTag(domain, imageWithoutTag string) string`
(image_routes.go lines 63-87): rewrite an image name without tag under the
resolved registry domain, keyed on the number of slash separators.  The Go
`switch` on `strings.Count(imageWithoutTag, "/")` with cases 2, 1, 0 and a
default is rendered as the equivalent chain of equality tests. -/
def convertImageTag (domain imageWithoutTag : Str) : Str :=
  if stringsCount imageWithoutTag '/' = 2 then
    let i := stringsIndexRune imageWithoutTag '/'
    domain ++ lit "/" ++ sliceFromSucc imageWithoutTag i
  else if stringsCount imageWithoutTag '/' = 1 then
    let i := stringsIndexRune imageWithoutTag '/'
    if ¬ stringsContainsAny (sliceTo imageWithoutTag i) (lit ".:")
        ∧ sliceTo imageWithoutTag i ≠ lit "localhost" then
      domain ++ lit "/" ++ imageWithoutTag
    else
      domain ++ lit "/" ++ defaultUserName ++ lit "/"
        ++ sliceFromSucc imageWithoutTag i
  else if stringsCount imageWithoutTag '/' = 0 then
    domain ++ lit "/" ++ defaultUserName ++ lit "/" ++ imageWithoutTag
  else
    -- unreachable per the source comment: <none> images are prefiltered
    []

/-- An HTTP response from the local resolver channel: status code and
body bytes.  `none` models a failed connection (`client.Get` error). -/
abbrev HttpResponse := Option (Nat × Str)

/-- Translation of `getRegistryUrl(imageIdWithTags string) string`
(image_routes.go lines 38-61).  The HTTP client over the unix socket is
the oracle `httpGet`; the single `resp.Body.Read` into a 32-byte buffer
is modelled as reading `min 32 (body.length)` bytes of the body. -/
def getRegistryUrl (httpGet : Str → HttpResponse) (imageIdWithTags : Str) : Str :=
  let url := lit "http://dockerd" ++ lit "/" ++ imageIdWithTags
  match httpGet url with
  | none => defaultRegistryUrl
  | some (statusCode, body) =>
    if statusCode = 200 then
      body.take 32
    else
      defaultRegistryUrl

/-- An opaque backend or library error value (Go `error`). -/
structure Err where
  msg : Str
deriving DecidableEq

/-- OCI platform record (`specs.Platform`); only the fields the handler
reads are carried. -/
structure Platform where
  os : Str
  architecture : Str
  variant : Str
deriving DecidableEq

/-- Decoded `types.AuthConfig` credential material (opaque to the
handler: it is only decoded and forwarded). -/
structure AuthConfig where
  username : Str
  password : Str
  identityToken : Str
deriving DecidableEq

/-- The empty `types.AuthConfig{}` the handler defaults to. -/
def AuthConfig.empty : AuthConfig := ⟨[], [], []⟩

/-- A `reference.Named` value produced by `reference.ParseNormalizedNamed`;
opaque here, the library is an external collaborator. -/
structure NamedRef where
  raw : Str
deriving DecidableEq

/-- The parsed form data and headers of one `POST /images/create`
request, as read by the handler after `httputils.ParseForm`. -/
structure Request where
  fromImage : Str
  repo : Str
  tag : Str
  message : Str
  fromSrc : Str
  platformField : Str
  changes : List Str
  headers : List (Str × List Str)
  authEncoded : Str
  body : Nat
  versionAtLeast132 : Bool

/-- One externally visible call made by the handler, in program order. -/
inductive Event
  | resolve (imageIdWithTags : Str)
  | pull (image tag : Str) (platform : Option Platform)
      (metaHeaders : List (Str × List Str)) (auth : AuthConfig)
  | tagImage (imageName repo tag : Str)
  | imageDelete (imageRef : Str) (force prune : Bool)
  | importImage (src repo os tag message : Str) (body : Nat) (changes : List Str)
  | writeError (e : Err)
deriving DecidableEq

/-- The handler's client-visible outcome: a hard error returned to the
HTTP layer, an error object injected into the already-started stream
(handler returns nil), or plain success (handler returns nil). -/
inductive Outcome
  | hardError (e : Err)
  | streamedError (e : Err)
  | ok
deriving DecidableEq

/-- The per-request behaviour of every external collaborator. -/
structure Env where
  /-- `httputils.ParseForm` result. -/
  parseFormError : Option Err
  /-- The HTTP client over the local unix socket inside `getRegistryUrl`. -/
  httpGet : Str → HttpResponse
  /-- `platforms.Parse`. -/
  parsePlatform : Str → Except Err Platform
  /-- `system.ValidatePlatform`. -/
  validatePlatform : Platform → Option Err
  /-- base64 and JSON decode of the `X-Registry-Auth` header; `none`
  models a decode error. -/
  decodeAuth : Str → Option AuthConfig
  /-- `s.backend.PullImage`: only its error is observed by the handler. -/
  pullImage : Str → Str → Option Platform → List (Str × List Str) →
      AuthConfig → Option Err
  /-- `s.backend.TagImage`: returned string and error. -/
  tagImage : Str → Str → Str → Str × Option Err
  /-- `s.backend.ImageDelete`: only its error is observed (and logged). -/
  imageDelete : Str → Bool → Bool → Option Err
  /-- `s.backend.ImportImage`: only its error is observed. -/
  importImage : Str → Str → Str → Str → Str → Nat → List Str → Option Err
  /-- `reference.ParseNormalizedNamed`; `none` models a parse error, in
  which case the returned `reference.Named` interface value is nil. -/
  parseNormalizedNamed : Str → Option NamedRef
  /-- `reference.FamiliarString`, applied to a possibly-nil interface
  value exactly as the handler does. -/
  familiarString : Option NamedRef → Str
  /-- Value of `output.Flushed()` when the final error check runs. -/
  flushed : Bool

/-- The platform computation of lines 112-125: parse and validate the
`platform` form value only when the API version is at least 1.32;
a parse or validation failure is fatal. -/
def computePlatform (req : Request) (env : Env) : Except Err (Option Platform) :=
  if req.versionAtLeast132 ∧ req.platformField ≠ [] then
    match env.parsePlatform req.platformField with
    | .error e => .error e
    | .ok sp =>
      match env.validatePlatform sp with
      | some e => .error e
      | none => .ok (some sp)
  else
    .ok none

/-- The `X-Meta-` prefix filter of lines 128-133. -/
def metaHeadersOf (req : Request) : List (Str × List Str) :=
  req.headers.filter (fun kv => (lit "X-Meta-").isPrefixOf kv.1)

/-- The auth decoding of lines 135-144: absent or malformed auth
degrades to the empty `AuthConfig`. -/
def authConfigOf (req : Request) (env : Env) : AuthConfig :=
  if req.authEncoded = [] then AuthConfig.empty
  else
    match env.decodeAuth req.authEncoded with
    | some a => a
    | none => AuthConfig.empty

/-- The shared error epilogue of lines 183-190: a non-nil error is
returned as a hard error when nothing has been flushed yet, and is
otherwise formatted into the stream while the handler returns nil. -/
def finishWith (trace : List Event) (err : Option Err) (flushed : Bool) :
    List Event × Outcome :=
  match err with
  | none => (trace, .ok)
  | some e =>
    if flushed then (trace ++ [.writeError e], .streamedError e)
    else (trace, .hardError e)

/-- Line 147: the argument `image + ":" + tag` handed to `getRegistryUrl`. -/
def resolverQueryOf (req : Request) : Str :=
  req.fromImage ++ lit ":" ++ req.tag

/-- Line 147: `registryUrl := getRegistryUrl(image + ":" + tag)`. -/
def registryUrlOf (req : Request) (env : Env) : Str :=
  getRegistryUrl env.httpGet (resolverQueryOf req)

/-- Line 148: `newImage := convertImageTag(registryUrl, image)`. -/
def newImageOf (req : Request) (env : Env) : Str :=
  convertImageTag (registryUrlOf req env) req.fromImage

/-- Line 151: the error captured from `s.backend.PullImage`. -/
def pullErrOf (req : Request) (env : Env) (platform : Option Platform) :
    Option Err :=
  env.pullImage (newImageOf req env) req.tag platform (metaHeadersOf req)
    (authConfigOf req env)

/-- Line 154: `srcTotalImage := newImage + ":" + tag`. -/
def srcTotalImageOf (req : Request) (env : Env) : Str :=
  newImageOf req env ++ lit ":" ++ req.tag

/-- Line 156: the string component returned by `s.backend.TagImage`;
the error component (`retagError`) is logged only. -/
def newRetagReturnOf (req : Request) (env : Env) : Str :=
  (env.tagImage (srcTotalImageOf req env) req.fromImage req.tag).1

/-- Line 164-165 guard: the parse error of `reference.ParseNormalizedNamed`
is discarded with `_`, and `reference.FamiliarString` is applied to the
possibly-nil result; delete happens iff the retag's returned string
differs from that familiar string. -/
def deleteNeeded (req : Request) (env : Env) : Prop :=
  newRetagReturnOf req env ≠
    env.familiarString (env.parseNormalizedNamed (srcTotalImageOf req env))

instance (req : Request) (env : Env) : Decidable (deleteNeeded req env) :=
  inferInstanceAs (Decidable (¬ _ = _))

/-- The pull branch of lines 127-171: resolve the registry, rewrite the
reference, pull, retag back to the requested name, conditionally delete
the intermediate tag, then surface the pull error flush-aware.  The
errors of `TagImage` and `ImageDelete` are logged only and never reach
the trace or the outcome. -/
def pullPath (req : Request) (env : Env) (platform : Option Platform) :
    List Event × Outcome :=
  finishWith
    ([Event.resolve (resolverQueryOf req),
      Event.pull (newImageOf req env) req.tag platform (metaHeadersOf req)
        (authConfigOf req env),
      Event.tagImage (srcTotalImageOf req env) req.fromImage req.tag]
      ++ if deleteNeeded req env then
           [Event.imageDelete (srcTotalImageOf req env) false true]
         else [])
    (pullErrOf req env platform) env.flushed

/-- Lines 177-180: `os := ""`, overwritten by `platform.OS` when a
platform was declared. -/
def osOf (platform : Option Platform) : Str :=
  match platform with
  | some p => p.os
  | none => []

/-- Line 181: the error captured from `s.backend.ImportImage`. -/
def importErrOf (req : Request) (env : Env) (platform : Option Platform) :
    Option Err :=
  env.importImage req.fromSrc req.repo (osOf platform) req.tag req.message
    req.body req.changes

/-- The import branch of lines 172-182. -/
def importPath (req : Request) (env : Env) (platform : Option Platform) :
    List Event × Outcome :=
  finishWith
    [Event.importImage req.fromSrc req.repo (osOf platform) req.tag
      req.message req.body req.changes]
    (importErrOf req env platform) env.flushed

/-- Translation of `postImagesCreate` (image_routes.go lines 90-191):
parse the form, optionally parse and validate a platform, then branch on
a non-empty `fromImage` between the pull path and the import path. -/
def postImagesCreate (req : Request) (env : Env) : List Event × Outcome :=
  match env.parseFormError with
  | some e => ([], .hardError e)
  | none =>
    match computePlatform req env with
    | .error e => ([], .hardError e)
    | .ok platform =>
      if req.fromImage ≠ [] then pullPath req env platform
      else importPath req env platform

/-- A concrete pull request: `fromImage=nginx&tag=latest`, no platform,
no auth, no extra headers. -/
def sampleReq : Request where
  fromImage := lit "nginx"
  repo := []
  tag := lit "latest"
  message := []
  fromSrc := []
  platformField := []
  changes := []
  headers := []
  authEncoded := []
  body := 0
  versionAtLeast132 := true

/-- A concrete benign environment: the resolver answers `myreg.io` with
status 200, every backend call succeeds, retag reports `nginx:latest`,
reference parsing succeeds and the familiar string is the raw string. -/
def sampleEnv : Env where
  parseFormError := none
  httpGet := fun _ => some (200, lit "myreg.io")
  parsePlatform := fun _ => Except.error ⟨lit "unused"⟩
  validatePlatform := fun _ => none
  decodeAuth := fun _ => none
  pullImage := fun _ _ _ _ _ => none
  tagImage := fun _ _ _ => (lit "nginx:latest", none)
  imageDelete := fun _ _ _ => none
  importImage := fun _ _ _ _ _ _ _ => none
  parseNormalizedNamed := fun s => some ⟨s⟩
  familiarString := fun r =>
    match r with
    | some n => n.raw
    | none => []
  flushed := false

/-- The benign environment with a failing pull and an already-flushed
stream. -/
def envPullFail : Env :=
  { sampleEnv with
    pullImage := fun _ _ _ _ _ => some ⟨lit "pull failed"⟩,
    flushed := true }

/-- The benign environment with a failing retag and a failing delete. -/
def envRetagFail : Env :=
  { sampleEnv with
    tagImage := fun _ _ _ => (lit "nginx:latest", some ⟨lit "retag failed"⟩),
    imageDelete := fun _ _ _ => some ⟨lit "delete failed"⟩ }

/-- The benign environment whose retag reports exactly the familiar
string of the normalized intermediate reference. -/
def envRetagSame : Env :=
  { sampleEnv with
    tagImage := fun _ _ _ => (lit "myreg.io/library/nginx:latest", none) }

/-- The benign environment whose reference parser rejects its input. -/
def envParseFail : Env :=
  { sampleEnv with parseNormalizedNamed := fun _ => none }

/-- A pull request whose `fromImage` holds three slash separators. -/
def reqOverSlashed : Request :=
  { sampleReq with fromImage := lit "a/b/c/d" }

/-- A pull request with an empty `tag` form field. -/
def reqNoTag : Request :=
  { sampleReq with tag := [] }

/-- An import request: empty `fromImage`, non-empty `fromSrc`. -/
def reqImport : Request :=
  { sampleReq with fromImage := [], fromSrc := lit "http://example.com/img.tar" }

/-!
String lemmas relating the Go string primitives to list structure.
-/

theorem stringsIndexRune_append (a rest : Str) (c : Char) (h : c ∉ a) :
    stringsIndexRune (a ++ c :: rest) c = a.length := by
  induction a with
  | nil => simp [stringsIndexRune]
  | cons x xs ih =>
    have hx : ¬ x = c := by
      intro hh
      exact h (by simp [hh])
    have hxs : c ∉ xs := by
      intro hh
      exact h (by simp [hh])
    rw [List.cons_append, stringsIndexRune]
    simp only [hx, if_false, ih hxs]
    have hge : ¬ ((xs.length : Int) < 0) := Int.not_lt.mpr (Int.natCast_nonneg _)
    rw [if_neg hge]
    simp only [List.length_cons]
    push_cast
    ring

theorem sliceTo_append (a rest : Str) (c : Char) :
    sliceTo (a ++ c :: rest) (a.length : Int) = a := by
  rw [sliceTo, Int.toNat_natCast]
  exact List.take_left a (c :: rest)

theorem sliceFromSucc_append (a rest : Str) (c : Char) :
    sliceFromSucc (a ++ c :: rest) (a.length : Int) = rest := by
  rw [sliceFromSucc, Int.toNat_natCast]
  have h1 : a ++ c :: rest = (a ++ [c]) ++ rest := by simp
  have h2 : a.length + 1 = (a ++ [c]).length := by simp
  rw [h1, h2]
  exact List.drop_left (a ++ [c]) rest

theorem stringsCount_one_sep (a b : Str) (h1 : '/' ∉ a) (h2 : '/' ∉ b) :
    stringsCount (a ++ '/' :: b) '/' = 1 := by
  rw [stringsCount, List.count_append, List.count_cons_self,
    List.count_eq_zero.mpr h1, List.count_eq_zero.mpr h2]

theorem stringsCount_two_sep (a b c : Str) (h1 : '/' ∉ a) (h2 : '/' ∉ b)
    (h3 : '/' ∉ c) :
    stringsCount (a ++ '/' :: (b ++ '/' :: c)) '/' = 2 := by
  rw [stringsCount, List.count_append, List.count_cons_self,
    List.count_append, List.count_cons_self, List.count_eq_zero.mpr h1,
    List.count_eq_zero.mpr h2, List.count_eq_zero.mpr h3]

theorem stringsContainsAny_dotColon (a : Str) :
    stringsContainsAny a (lit ".:") = false ↔ ('.' ∉ a ∧ ':' ∉ a) := by
  rw [stringsContainsAny]
  simp only [List.any_eq_false, lit, List.contains]
  constructor
  · intro h
    exact ⟨fun hm => by simpa using h '.' hm, fun hm => by simpa using h ':' hm⟩
  · rintro ⟨h1, h2⟩ x hx
    have hne : ¬ (x = '.' ∨ x = ':') := by
      rintro (rfl | rfl)
      · exact h1 hx
      · exact h2 hx
    simpa using hne

theorem lit_slash_append (a b : Str) : a ++ lit "/" ++ b = a ++ '/' :: b := by
  simp [lit]

/-!
Case lemmas for `convertImageTag`, one per branch of the switch.
-/

theorem convertImageTag_zero_sep (d img : Str) (h : '/' ∉ img) :
    convertImageTag d img = d ++ lit "/" ++ lit "library" ++ lit "/" ++ img := by
  have hc : stringsCount img '/' = 0 := List.count_eq_zero.mpr h
  rw [convertImageTag, if_neg (by omega), if_neg (by omega), if_pos hc,
    defaultUserName]

theorem convertImageTag_one_sep_user (d a b : Str) (ha : '/' ∉ a) (hb : '/' ∉ b)
    (hdot : '.' ∉ a) (hcolon : ':' ∉ a) (hloc : a ≠ lit "localhost") :
    convertImageTag d (a ++ lit "/" ++ b) = d ++ lit "/" ++ a ++ lit "/" ++ b := by
  rw [lit_slash_append]
  have hc : stringsCount (a ++ '/' :: b) '/' = 1 := stringsCount_one_sep a b ha hb
  rw [convertImageTag, if_neg (by omega), if_pos hc]
  simp only [stringsIndexRune_append a b '/' ha, sliceTo_append a b '/']
  rw [if_pos ⟨by rw [(stringsContainsAny_dotColon a).mpr ⟨hdot, hcolon⟩]; simp, hloc⟩]
  simp [lit]

theorem convertImageTag_one_sep_domain (d a b : Str) (ha : '/' ∉ a) (hb : '/' ∉ b)
    (hd : '.' ∈ a ∨ ':' ∈ a ∨ a = lit "localhost") :
    convertImageTag d (a ++ lit "/" ++ b) =
      d ++ lit "/" ++ lit "library" ++ lit "/" ++ b := by
  rw [lit_slash_append]
  have hc : stringsCount (a ++ '/' :: b) '/' = 1 := stringsCount_one_sep a b ha hb
  rw [convertImageTag, if_neg (by omega), if_pos hc]
  simp only [stringsIndexRune_append a b '/' ha, sliceTo_append a b '/',
    sliceFromSucc_append a b '/']
  have hcond : ¬ (¬ stringsContainsAny a (lit ".:") = true ∧ a ≠ lit "localhost") := by
    rintro ⟨hno, hne⟩
    have habs := (stringsContainsAny_dotColon a).mp (by simpa using hno)
    rcases hd with hd | hd | hd
    · exact habs.1 hd
    · exact habs.2 hd
    · exact hne hd
  rw [if_neg hcond, defaultUserName]

theorem convertImageTag_two_sep (d a b c : Str) (ha : '/' ∉ a) (hb : '/' ∉ b)
    (hc : '/' ∉ c) :
    convertImageTag d (a ++ lit "/" ++ (b ++ lit "/" ++ c)) =
      d ++ lit "/" ++ b ++ lit "/" ++ c := by
  rw [lit_slash_append, lit_slash_append]
  have hcnt : stringsCount (a ++ '/' :: (b ++ '/' :: c)) '/' = 2 :=
    stringsCount_two_sep a b c ha hb hc
  rw [convertImageTag, if_pos hcnt]
  simp only [stringsIndexRune_append a (b ++ '/' :: c) '/' ha,
    sliceFromSucc_append a (b ++ '/' :: c) '/']
  simp [lit]

/-!
Characterization lemmas for the handler.
-/

theorem postImagesCreate_pull (req : Request) (env : Env) (p : Option Platform)
    (hform : env.parseFormError = none)
    (hplat : computePlatform req env = Except.ok p)
    (himg : req.fromImage ≠ []) :
    postImagesCreate req env = pullPath req env p := by
  simp only [postImagesCreate, hform, hplat]
  rw [if_pos himg]

theorem postImagesCreate_import (req : Request) (env : Env) (p : Option Platform)
    (hform : env.parseFormError = none)
    (hplat : computePlatform req env = Except.ok p)
    (himg : req.fromImage = []) :
    postImagesCreate req env = importPath req env p := by
  simp only [postImagesCreate, hform, hplat, himg]
  rw [if_neg (by simp)]

theorem pullPath_trace (req : Request) (env : Env) (p : Option Platform) :
    (pullPath req env p).1 =
      ([Event.resolve (resolverQueryOf req),
        Event.pull (newImageOf req env) req.tag p (metaHeadersOf req)
          (authConfigOf req env),
        Event.tagImage (srcTotalImageOf req env) req.fromImage req.tag]
        ++ (if deleteNeeded req env then
              [Event.imageDelete (srcTotalImageOf req env) false true]
            else [])
        ++ (match pullErrOf req env p with
            | some e => if env.flushed then [Event.writeError e] else []
            | none => [])) := by
  rw [pullPath]
  cases hp : pullErrOf req env p with
  | none => simp [finishWith]
  | some e =>
    cases hf : env.flushed with
    | false => simp [finishWith, hf]
    | true => simp [finishWith, hf]

theorem pullPath_outcome (req : Request) (env : Env) (p : Option Platform) :
    (pullPath req env p).2 =
      (match pullErrOf req env p with
       | none => Outcome.ok
       | some e =>
         if env.flushed then Outcome.streamedError e else Outcome.hardError e) := by
  rw [pullPath]
  cases hp : pullErrOf req env p with
  | none => simp [finishWith]
  | some e =>
    cases hf : env.flushed with
    | false => simp [finishWith, hf]
    | true => simp [finishWith, hf]

theorem importPath_outcome (req : Request) (env : Env) (p : Option Platform) :
    (importPath req env p).2 =
      (match importErrOf req env p with
       | none => Outcome.ok
       | some e =>
         if env.flushed then Outcome.streamedError e else Outcome.hardError e) := by
  rw [importPath]
  cases hp : importErrOf req env p with
  | none => simp [finishWith]
  | some e =>
    cases hf : env.flushed with
    | false => simp [finishWith, hf]
    | true => simp [finishWith, hf]

/-!
Claim theorems.
-/

/-- C2: when the backend pull fails, the retag call and the conditional
delete still run, in program order, and only afterwards is the pull
error surfaced: as a hard error when nothing was flushed, and as a
formatted error object appended to the stream (with the handler
returning nil, i.e. a non-hard outcome) when the stream already
started. -/
theorem pullError_surfaced_after_retag_and_delete (req : Request) (env : Env)
    (p : Option Platform) (e : Err)
    (hform : env.parseFormError = none)
    (hplat : computePlatform req env = Except.ok p)
    (himg : req.fromImage ≠ [])
    (hpull : pullErrOf req env p = some e) :
    postImagesCreate req env =
      ([Event.resolve (resolverQueryOf req),
        Event.pull (newImageOf req env) req.tag p (metaHeadersOf req)
          (authConfigOf req env),
        Event.tagImage (srcTotalImageOf req env) req.fromImage req.tag]
        ++ (if deleteNeeded req env then
              [Event.imageDelete (srcTotalImageOf req env) false true]
            else [])
        ++ (if env.flushed then [Event.writeError e] else []),
       if env.flushed then Outcome.streamedError e else Outcome.hardError e) := by
  rw [postImagesCreate_pull req env p hform hplat himg, pullPath, hpull]
  cases hf : env.flushed
  · simp [finishWith, hf]
  · simp [finishWith, hf, List.append_assoc]

/-- C3: errors of the backend retag (`TagImage`) and of the backend
delete (`ImageDelete`) never appear in the handler's outcome and are
never written to the stream; for a pull request the client-visible
outcome is a function of the pull error and the flush state alone, and
replacing the retag error and the whole delete behaviour leaves the
handler's behaviour unchanged. -/
theorem retag_and_delete_errors_invisible (req : Request) (env : Env)
    (p : Option Platform)
    (hform : env.parseFormError = none)
    (hplat : computePlatform req env = Except.ok p)
    (himg : req.fromImage ≠ []) :
    ((pullErrOf req env p = none → (postImagesCreate req env).2 = Outcome.ok)
     ∧ (∀ e, pullErrOf req env p = some e →
         (postImagesCreate req env).2 =
           if env.flushed then Outcome.streamedError e else Outcome.hardError e))
    ∧ (∀ e, Event.writeError e ∈ (postImagesCreate req env).1 →
        pullErrOf req env p = some e)
    ∧ (∀ tagErr : Str → Str → Str → Option Err,
       ∀ delResult : Str → Bool → Bool → Option Err,
        postImagesCreate req
          { env with
            tagImage := fun a b c => ((env.tagImage a b c).1, tagErr a b c),
            imageDelete := delResult } =
        postImagesCreate req env) := by
  have hpc := postImagesCreate_pull req env p hform hplat himg
  refine ⟨⟨?_, ?_⟩, ?_, ?_⟩
  · intro h0
    rw [hpc, pullPath_outcome, h0]
  · intro e he
    rw [hpc, pullPath_outcome, he]
  · intro e he
    rw [hpc, pullPath_trace] at he
    cases hp : pullErrOf req env p with
    | none =>
      rw [hp] at he
      by_cases hdel : deleteNeeded req env <;> simp [hdel] at he
    | some e2 =>
      rw [hp] at he
      cases hf : env.flushed with
      | false =>
        rw [hf] at he
        by_cases hdel : deleteNeeded req env <;> simp [hdel] at he
      | true =>
        rw [hf] at he
        by_cases hdel : deleteNeeded req env <;> simp [hdel] at he <;>
          rw [he]
  · intro tagErr delResult
    rfl

/-- C4: in the pull path, `ImageDelete` is invoked on the intermediate
reference `newImage + ":" + tag` with `force = false` and `prune = true`
if and only if the string returned by the retag differs from the
familiar-string form of the normalized intermediate reference; every
delete event carries exactly those arguments. -/
theorem imageDelete_iff_retag_differs (req : Request) (env : Env)
    (p : Option Platform)
    (hform : env.parseFormError = none)
    (hplat : computePlatform req env = Except.ok p)
    (himg : req.fromImage ≠ []) :
    (Event.imageDelete (srcTotalImageOf req env) false true ∈
        (postImagesCreate req env).1
      ↔ newRetagReturnOf req env ≠
          env.familiarString (env.parseNormalizedNamed (srcTotalImageOf req env)))
    ∧ (∀ ref f pr, Event.imageDelete ref f pr ∈ (postImagesCreate req env).1 →
        ref = srcTotalImageOf req env ∧ f = false ∧ pr = true) := by
  have hpc := postImagesCreate_pull req env p hform hplat himg
  constructor
  · rw [hpc, pullPath_trace]
    show _ ∈ _ ↔ deleteNeeded req env
    by_cases hdel : deleteNeeded req env <;>
      cases hp : pullErrOf req env p <;>
        cases hf : env.flushed <;>
          simp [hdel, hp, hf]
  · intro ref f pr hmem
    rw [hpc, pullPath_trace] at hmem
    by_cases hdel : deleteNeeded req env <;>
      cases hp : pullErrOf req env p <;>
        cases hf : env.flushed <;>
          rw [hp] at hmem <;> rw [hf] at hmem <;>
            simp [hdel] at hmem <;>
              exact ⟨hmem.1, hmem.2.1, hmem.2.2⟩

/-- C8: when the `fromImage` form field is empty the workflow takes
the import path: `ImportImage` is called with the `fromSrc` field, the
`repo` field, the declared platform's OS (empty when no platform was
given), the tag, the message, the request body and the `changes` field,
the resolver and the pull machinery are never invoked, and import errors
get the same flush-aware epilogue (`finishWith`) as pull errors. -/
theorem import_path_taken (req : Request) (env : Env) (p : Option Platform)
    (hform : env.parseFormError = none)
    (hplat : computePlatform req env = Except.ok p)
    (himg : req.fromImage = []) :
    postImagesCreate req env =
      finishWith
        [Event.importImage req.fromSrc req.repo (osOf p) req.tag req.message
          req.body req.changes]
        (importErrOf req env p) env.flushed
    ∧ (∀ s, Event.resolve s ∉ (postImagesCreate req env).1)
    ∧ (∀ i t pl m a, Event.pull i t pl m a ∉ (postImagesCreate req env).1)
    ∧ (osOf none = [] ∧ ∀ sp, osOf (some sp) = sp.os)
    ∧ ((importErrOf req env p = none → (postImagesCreate req env).2 = Outcome.ok)
       ∧ ∀ e, importErrOf req env p = some e →
           (postImagesCreate req env).2 =
             if env.flushed then Outcome.streamedError e else Outcome.hardError e) := by
  have hpc := postImagesCreate_import req env p hform hplat himg
  refine ⟨by rw [hpc]; rfl, ?_, ?_, ⟨rfl, fun sp => rfl⟩, ?_, ?_⟩
  · intro s hmem
    rw [hpc, importPath] at hmem
    cases hp : importErrOf req env p <;> rw [hp] at hmem <;>
      cases hf : env.flushed <;> simp [finishWith, hf] at hmem
  · intro i t pl m a hmem
    rw [hpc, importPath] at hmem
    cases hp : importErrOf req env p <;> rw [hp] at hmem <;>
      cases hf : env.flushed <;> simp [finishWith, hf] at hmem
  · intro h0
    rw [hpc, importPath_outcome, h0]
  · intro e he
    rw [hpc, importPath_outcome, he]

/-- C9: the error of `reference.ParseNormalizedNamed` on the
intermediate reference `newImage + ":" + tag` is discarded: when the
parse fails (`srcTotalImageRef` is nil), the delete guard is still
evaluated with `reference.FamiliarString` applied to the nil value, the
step is not skipped, and no error from the parse reaches the outcome,
which is still determined by the pull error and the flush state. -/
theorem parse_failure_ignored (req : Request) (env : Env) (p : Option Platform)
    (hform : env.parseFormError = none)
    (hplat : computePlatform req env = Except.ok p)
    (himg : req.fromImage ≠ [])
    (hparse : env.parseNormalizedNamed (srcTotalImageOf req env) = none) :
    (Event.imageDelete (srcTotalImageOf req env) false true ∈
        (postImagesCreate req env).1
      ↔ newRetagReturnOf req env ≠ env.familiarString none)
    ∧ (postImagesCreate req env).2 =
        (match pullErrOf req env p with
         | none => Outcome.ok
         | some e =>
           if env.flushed then Outcome.streamedError e
           else Outcome.hardError e) := by
  have hpc := postImagesCreate_pull req env p hform hplat himg
  constructor
  · rw [hpc, pullPath_trace]
    have hshow : deleteNeeded req env ↔
        newRetagReturnOf req env ≠ env.familiarString none := by
      rw [deleteNeeded, hparse]
    rw [← hshow]
    by_cases hdel : deleteNeeded req env <;>
      cases hp : pullErrOf req env p <;>
        cases hf : env.flushed <;>
          simp [hdel, hp, hf]
  · rw [hpc, pullPath_outcome]

/-- C10: the colon is concatenated unconditionally: the resolver is
queried with exactly `fromImage + ":" + tag` (the first event of the
trace), pull receives `newImage` and the raw tag, retag and delete use
exactly `newImage + ":" + tag`, and when the tag field is empty both
strings simply end in a trailing colon instead of receiving a default
tag. -/
theorem colon_appended_unconditionally (req : Request) (env : Env)
    (p : Option Platform)
    (hform : env.parseFormError = none)
    (hplat : computePlatform req env = Except.ok p)
    (himg : req.fromImage ≠ []) :
    (postImagesCreate req env).1.head? =
        some (Event.resolve (req.fromImage ++ lit ":" ++ req.tag))
    ∧ Event.pull (newImageOf req env) req.tag p (metaHeadersOf req)
        (authConfigOf req env) ∈ (postImagesCreate req env).1
    ∧ Event.tagImage (newImageOf req env ++ lit ":" ++ req.tag) req.fromImage
        req.tag ∈ (postImagesCreate req env).1
    ∧ (∀ ref f pr, Event.imageDelete ref f pr ∈ (postImagesCreate req env).1 →
        ref = newImageOf req env ++ lit ":" ++ req.tag)
    ∧ (req.tag = [] →
        req.fromImage ++ lit ":" ++ req.tag = req.fromImage ++ [':']
        ∧ newImageOf req env ++ lit ":" ++ req.tag =
            newImageOf req env ++ [':']) := by
  have hpc := postImagesCreate_pull req env p hform hplat himg
  refine ⟨?_, ?_, ?_, ?_, ?_⟩
  · rw [hpc, pullPath_trace, resolverQueryOf]
    rfl
  · rw [hpc, pullPath_trace]
    simp
  · rw [hpc, pullPath_trace, srcTotalImageOf]
    simp
  · intro ref f pr hmem
    rw [hpc, pullPath_trace] at hmem
    by_cases hdel : deleteNeeded req env <;>
      cases hp : pullErrOf req env p <;>
        cases hf : env.flushed <;>
          rw [hp] at hmem <;> rw [hf] at hmem <;>
            simp [hdel] at hmem <;>
              rw [hmem.1, srcTotalImageOf]
  · intro htag
    rw [htag]
    constructor <;> simp [lit]

/-- C1: for every domain `d` and every image-without-tag input with zero,
one, or two slash separators, `convertImageTag` returns exactly the
reference case table: with zero separators `d/library/image`; with one
separator `a/b` it returns `d/a/b` when `a` contains no `.` and no `:`
and is not the literal `localhost`, and `d/library/b` otherwise; with two
separators `a/b/c` it returns `d/b/c`. -/
theorem convertImageTag_case_table (d : Str) :
    (∀ img : Str, '/' ∉ img →
        convertImageTag d img = d ++ lit "/" ++ lit "library" ++ lit "/" ++ img)
    ∧ (∀ a b : Str, '/' ∉ a → '/' ∉ b →
        (('.' ∉ a ∧ ':' ∉ a ∧ a ≠ lit "localhost") →
            convertImageTag d (a ++ lit "/" ++ b) =
              d ++ lit "/" ++ a ++ lit "/" ++ b)
        ∧ (('.' ∈ a ∨ ':' ∈ a ∨ a = lit "localhost") →
            convertImageTag d (a ++ lit "/" ++ b) =
              d ++ lit "/" ++ lit "library" ++ lit "/" ++ b))
    ∧ (∀ a b c : Str, '/' ∉ a → '/' ∉ b → '/' ∉ c →
        convertImageTag d (a ++ lit "/" ++ (b ++ lit "/" ++ c)) =
          d ++ lit "/" ++ b ++ lit "/" ++ c) := by
  refine ⟨fun img h => convertImageTag_zero_sep d img h, fun a b ha hb => ⟨?_, ?_⟩,
    fun a b c ha hb hc => convertImageTag_two_sep d a b c ha hb hc⟩
  · rintro ⟨hdot, hcolon, hloc⟩
    exact convertImageTag_one_sep_user d a b ha hb hdot hcolon hloc
  · intro hd
    exact convertImageTag_one_sep_domain d a b ha hb hd

/-- Witness for C1 at the spec's concrete examples. -/
theorem convertImageTag_case_table_witness :
    convertImageTag (lit "r") (lit "nginx") = lit "r/library/nginx"
    ∧ convertImageTag (lit "r") (lit "myuser/nginx") = lit "r/myuser/nginx"
    ∧ convertImageTag (lit "r") (lit "localhost/nginx") = lit "r/library/nginx"
    ∧ convertImageTag (lit "r") (lit "registry.example.com/nginx") =
        lit "r/library/nginx"
    ∧ convertImageTag (lit "r") (lit "oldreg.io/myuser/nginx") =
        lit "r/myuser/nginx" := by
  have h := convertImageTag_case_table (lit "r")
  refine ⟨?_, ?_, ?_, ?_, ?_⟩
  · have h0 := h.1 (lit "nginx") (by decide)
    rw [h0]; decide
  · have e : lit "myuser/nginx" = lit "myuser" ++ lit "/" ++ lit "nginx" := by decide
    have h1 := (h.2.1 (lit "myuser") (lit "nginx") (by decide) (by decide)).1
      ⟨by decide, by decide, by decide⟩
    rw [e, h1]; decide
  · have e : lit "localhost/nginx" = lit "localhost" ++ lit "/" ++ lit "nginx" := by
      decide
    have h1 := (h.2.1 (lit "localhost") (lit "nginx") (by decide) (by decide)).2
      (Or.inr (Or.inr rfl))
    rw [e, h1]; decide
  · have e : lit "registry.example.com/nginx" =
        lit "registry.example.com" ++ lit "/" ++ lit "nginx" := by decide
    have h1 := (h.2.1 (lit "registry.example.com") (lit "nginx") (by decide)
      (by decide)).2 (Or.inl (by decide))
    rw [e, h1]; decide
  · have e : lit "oldreg.io/myuser/nginx" =
        lit "oldreg.io" ++ lit "/" ++ (lit "myuser" ++ lit "/" ++ lit "nginx") := by
      decide
    have h1 := h.2.2 (lit "oldreg.io") (lit "myuser") (lit "nginx")
      (by decide) (by decide) (by decide)
    rw [e, h1]; decide

/-- C7: for every domain and every image-without-tag input containing
three or more slash separators, `convertImageTag` returns the empty
string. -/
theorem convertImageTag_overSlashed (d img : Str)
    (h : 3 ≤ stringsCount img '/') :
    convertImageTag d img = [] := by
  rw [convertImageTag, if_neg (by omega), if_neg (by omega), if_neg (by omega)]

/-- Witness for C7 at the spec's example `a/b/c/d`. -/
theorem convertImageTag_overSlashed_witness :
    3 ≤ stringsCount (lit "a/b/c/d") '/'
    ∧ convertImageTag (lit "r") (lit "a/b/c/d") = [] :=
  ⟨by decide, convertImageTag_overSlashed (lit "r") (lit "a/b/c/d") (by decide)⟩

/-- C5: `getRegistryUrl` never fails; when the connection over the local
channel cannot be established (`client.Get` errors) or the response
status is not 200, it returns the default domain `docker.io`.  The
function's return type carries no error at all, so no error can
propagate to its caller. -/
theorem getRegistryUrl_absorbs_failures (httpGet : Str → HttpResponse)
    (img : Str)
    (h : httpGet (lit "http://dockerd" ++ lit "/" ++ img) = none
       ∨ ∃ st body, httpGet (lit "http://dockerd" ++ lit "/" ++ img) =
           some (st, body) ∧ st ≠ 200) :
    getRegistryUrl httpGet img = lit "docker.io" := by
  rcases h with h | ⟨st, body, h, hst⟩
  · simp only [List.append_assoc] at h
    simp [getRegistryUrl, h, defaultRegistryUrl]
  · simp only [List.append_assoc] at h
    simp [getRegistryUrl, h, hst, defaultRegistryUrl]

/-- Witness for C5: an unreachable channel yields `docker.io`. -/
theorem getRegistryUrl_absorbs_failures_witness :
    getRegistryUrl (fun _ => none) (lit "nginx:latest") = lit "docker.io" :=
  getRegistryUrl_absorbs_failures (fun _ => none) (lit "nginx:latest")
    (Or.inl rfl)

/-- C6: on a 200 response, `getRegistryUrl` returns the body verbatim,
reading at most 32 bytes: a body of length at most 32 is returned
exactly, and a longer body is truncated to its first 32 bytes. -/
theorem getRegistryUrl_truncates_body (httpGet : Str → HttpResponse)
    (img body : Str)
    (h : httpGet (lit "http://dockerd" ++ lit "/" ++ img) = some (200, body)) :
    (body.length ≤ 32 → getRegistryUrl httpGet img = body)
    ∧ (32 < body.length →
        getRegistryUrl httpGet img = body.take 32
        ∧ (getRegistryUrl httpGet img).length = 32) := by
  have hval : getRegistryUrl httpGet img = body.take 32 := by
    simp only [List.append_assoc] at h
    simp [getRegistryUrl, h]
  constructor
  · intro hle
    rw [hval, List.take_of_length_le hle]
  · intro hgt
    refine ⟨hval, ?_⟩
    rw [hval, List.length_take]
    omega

/-- Witness for C6: a short body is returned exactly. -/
theorem getRegistryUrl_truncates_body_witness :
    getRegistryUrl (fun _ => some (200, lit "myreg.io")) (lit "nginx:latest") =
      lit "myreg.io" :=
  (getRegistryUrl_truncates_body (fun _ => some (200, lit "myreg.io"))
    (lit "nginx:latest") (lit "myreg.io") rfl).1 (by decide)

/-- Witness for C2: a failed pull on an already-flushed stream still
retags, deletes the intermediate tag, and appends the error in-band. -/
theorem pullError_surfaced_after_retag_and_delete_witness :
    postImagesCreate sampleReq envPullFail =
      ([Event.resolve (lit "nginx:latest"),
        Event.pull (lit "myreg.io/library/nginx") (lit "latest") none []
          AuthConfig.empty,
        Event.tagImage (lit "myreg.io/library/nginx:latest") (lit "nginx")
          (lit "latest"),
        Event.imageDelete (lit "myreg.io/library/nginx:latest") false true,
        Event.writeError ⟨lit "pull failed"⟩],
       Outcome.streamedError ⟨lit "pull failed"⟩) := by
  have h := pullError_surfaced_after_retag_and_delete sampleReq envPullFail none
    ⟨lit "pull failed"⟩ rfl rfl (by decide) rfl
  rw [h]
  decide

/-- Witness for C3: a failing retag and a failing delete leave the
outcome a plain success. -/
theorem retag_and_delete_errors_invisible_witness :
    (postImagesCreate sampleReq envRetagFail).2 = Outcome.ok :=
  (retag_and_delete_errors_invisible sampleReq envRetagFail none rfl rfl
    (by decide)).1.1 rfl

/-- Witness for C4: a differing retag result triggers the delete of the
intermediate reference, and an identical one suppresses it. -/
theorem imageDelete_iff_retag_differs_witness :
    Event.imageDelete (lit "myreg.io/library/nginx:latest") false true ∈
      (postImagesCreate sampleReq sampleEnv).1
    ∧ Event.imageDelete (lit "myreg.io/library/nginx:latest") false true ∉
        (postImagesCreate sampleReq envRetagSame).1 := by
  constructor
  · have h := imageDelete_iff_retag_differs sampleReq sampleEnv none rfl rfl
      (by decide)
    have h2 := h.1.mpr (by decide)
    have e : srcTotalImageOf sampleReq sampleEnv =
        lit "myreg.io/library/nginx:latest" := by decide
    rw [e] at h2
    exact h2
  · intro hmem
    have h := imageDelete_iff_retag_differs sampleReq envRetagSame none rfl rfl
      (by decide)
    have e : srcTotalImageOf sampleReq envRetagSame =
        lit "myreg.io/library/nginx:latest" := by decide
    rw [← e] at hmem
    exact absurd (h.1.mp hmem) (by decide)

/-- Witness for C8: an import request calls only `ImportImage` and
succeeds. -/
theorem import_path_taken_witness :
    postImagesCreate reqImport sampleEnv =
      ([Event.importImage (lit "http://example.com/img.tar") [] []
          (lit "latest") [] 0 []],
       Outcome.ok) := by
  have h := import_path_taken reqImport sampleEnv none rfl rfl rfl
  rw [h.1]
  decide

/-- Witness for C9: with `fromImage = "a/b/c/d"` the rewriter returns
the empty string, the parse of `":latest"` fails, and the delete guard
still fires on the comparison with the familiar string of nil. -/
theorem parse_failure_ignored_witness :
    Event.imageDelete (lit ":latest") false true ∈
      (postImagesCreate reqOverSlashed envParseFail).1 := by
  have h := parse_failure_ignored reqOverSlashed envParseFail none rfl rfl
    (by decide) rfl
  have h2 := h.1.mpr (by decide)
  have e : srcTotalImageOf reqOverSlashed envParseFail = lit ":latest" := by
    decide
  rw [e] at h2
  exact h2

/-- Witness for C10: with an empty tag field the resolver query and the
intermediate reference both end in a bare trailing colon. -/
theorem colon_appended_unconditionally_witness :
    (postImagesCreate reqNoTag sampleEnv).1.head? =
      some (Event.resolve (lit "nginx:"))
    ∧ Event.tagImage (lit "myreg.io/library/nginx:") (lit "nginx") [] ∈
        (postImagesCreate reqNoTag sampleEnv).1 := by
  have h := colon_appended_unconditionally reqNoTag sampleEnv none rfl rfl
    (by decide)
  exact ⟨h.1, h.2.2.1⟩

end ImageRoutes
